import Mathlib

/-!
Verification of the twin-engine flying-wing mixer
(`src/firmware/src/mixer_custom_twin.c`) against its design specification.

The repository snapshot contains the compiled-in rule table
`mixerRulesTwinEngine` and the airframe descriptor `mixerTwinEngine`.
The mix engine (`evaluate`) and the airframe loader (`load`) are declared
by the firmware headers but their sources are not part of the snapshot;
they are modelled here from the specification (§4.1 and §4.2), as noted
in their doc comments.  All fixed-point arithmetic uses C truncated
integer division, embedded as `Int.tdiv`.
-/

namespace UAVMixer

/-- Input channel identifiers (the four stabilized channels used by this
airframe, from `flight/mixer.h` as described by spec §3). -/
inductive InputChannel where
  | STABILIZED_ROLL
  | STABILIZED_PITCH
  | STABILIZED_YAW
  | STABILIZED_THROTTLE
deriving DecidableEq, Repr

/-- Rule kind: which output array a rule targets (`MIXER_MOTOR` / `MIXER_SERVO`). -/
inductive MixerRuleType where
  | MIXER_MOTOR
  | MIXER_SERVO
deriving DecidableEq, Repr

/-- `mixerRule_t`: the 5-tuple {type, output index, input, rate, offset}
from the C source. -/
structure mixerRule_t where
  type : MixerRuleType
  output_index : Nat
  input : InputChannel
  rate : Int
  offset : Int
deriving DecidableEq, Repr

/-- The compiled-in rule table `mixerRulesTwinEngine`, transcribed rule for
rule and in order from `src/firmware/src/mixer_custom_twin.c` lines 17-43. -/
def mixerRulesTwinEngine : List mixerRule_t :=
  [ ⟨.MIXER_MOTOR, 0, .STABILIZED_THROTTLE, 1000, 0⟩,
    ⟨.MIXER_MOTOR, 0, .STABILIZED_YAW, -500, 0⟩,
    ⟨.MIXER_MOTOR, 1, .STABILIZED_THROTTLE, 1000, 0⟩,
    ⟨.MIXER_MOTOR, 1, .STABILIZED_YAW, 500, 0⟩,
    ⟨.MIXER_SERVO, 0, .STABILIZED_PITCH, 500, 0⟩,
    ⟨.MIXER_SERVO, 0, .STABILIZED_ROLL, -500, 0⟩,
    ⟨.MIXER_SERVO, 1, .STABILIZED_PITCH, 500, 0⟩,
    ⟨.MIXER_SERVO, 1, .STABILIZED_ROLL, 500, 0⟩ ]

/-- `mixer_t`: the airframe descriptor {motorCount, servoCount, rules}. -/
structure mixer_t where
  motorCount : Nat
  servoCount : Nat
  rules : List mixerRule_t
deriving DecidableEq, Repr

/-- The compiled airframe descriptor `mixerTwinEngine` from
`src/firmware/src/mixer_custom_twin.c` lines 46-51 (`ruleCount` is the
length of the bound rule list and is implicit in the embedding). -/
def mixerTwinEngine : mixer_t :=
  { motorCount := 2, servoCount := 2, rules := mixerRulesTwinEngine }

/-- The normative twin-wing table of spec §3, transcribed from the spec's
own words (rule numbers 1-8 of the table), for comparison against the
compiled-in table. -/
def specTwinWingTable : List mixerRule_t :=
  [ ⟨.MIXER_MOTOR, 0, .STABILIZED_THROTTLE, 1000, 0⟩,
    ⟨.MIXER_MOTOR, 0, .STABILIZED_YAW, -500, 0⟩,
    ⟨.MIXER_MOTOR, 1, .STABILIZED_THROTTLE, 1000, 0⟩,
    ⟨.MIXER_MOTOR, 1, .STABILIZED_YAW, 500, 0⟩,
    ⟨.MIXER_SERVO, 0, .STABILIZED_PITCH, 500, 0⟩,
    ⟨.MIXER_SERVO, 0, .STABILIZED_ROLL, -500, 0⟩,
    ⟨.MIXER_SERVO, 1, .STABILIZED_PITCH, 500, 0⟩,
    ⟨.MIXER_SERVO, 1, .STABILIZED_ROLL, 500, 0⟩ ]

/-- One coherent snapshot of the four stabilized inputs (the input bus of
spec §2/§6); each value is canonically in `[-1000, +1000]`. -/
structure InputSnapshot where
  throttle : Int
  roll : Int
  pitch : Int
  yaw : Int
deriving DecidableEq, Repr

/-- The input-read interface `read(channel)` of spec §6, reading one
channel out of a snapshot. -/
def readInput (s : InputSnapshot) : InputChannel → Int
  | .STABILIZED_ROLL => s.roll
  | .STABILIZED_PITCH => s.pitch
  | .STABILIZED_YAW => s.yaw
  | .STABILIZED_THROTTLE => s.throttle

/-- All four stabilized inputs of a snapshot lie in the canonical range
`[-1000, +1000]` (spec §4.1). -/
def InputSnapshot.inRange (s : InputSnapshot) : Prop :=
  -1000 ≤ s.throttle ∧ s.throttle ≤ 1000 ∧
  -1000 ≤ s.roll ∧ s.roll ≤ 1000 ∧
  -1000 ≤ s.pitch ∧ s.pitch ≤ 1000 ∧
  -1000 ≤ s.yaw ∧ s.yaw ≤ 1000

instance (s : InputSnapshot) : Decidable s.inRange := by
  unfold InputSnapshot.inRange; infer_instance

/-- Modelled from the spec: the missing mix-engine source.  Per-rule
contribution of §4.1 step 2, `contrib = (rate × read(input)) / 1000 + offset`,
with C truncated integer division (`Int.tdiv`). -/
def contrib (s : InputSnapshot) (r : mixerRule_t) : Int :=
  (r.rate * readInput s r.input).tdiv 1000 + r.offset

/-- Modelled from the spec: the missing mix-engine source.  §4.1 step 2:
add a rule's contribution to the slot identified by `(kind, out_index)`. -/
def applyRule (s : InputSnapshot) (acc : List Int × List Int) (r : mixerRule_t) :
    List Int × List Int :=
  match r.type with
  | .MIXER_MOTOR => (acc.1.set r.output_index (acc.1.getD r.output_index 0 + contrib s r), acc.2)
  | .MIXER_SERVO => (acc.1, acc.2.set r.output_index (acc.2.getD r.output_index 0 + contrib s r))

/-- Modelled from the spec: the missing mix-engine source.  §4.1 steps 1-2:
zero all motor and servo slots, then apply every rule in table order.
Returns the pre-clamp accumulators `(motor slots, servo slots)`. -/
def preClamp (m : mixer_t) (s : InputSnapshot) : List Int × List Int :=
  m.rules.foldl (applyRule s) (List.replicate m.motorCount 0, List.replicate m.servoCount 0)

/-- Modelled from the spec: §4.1 step 3, motor clamp to `[0, 1000]`. -/
def clampMotor (x : Int) : Int := max 0 (min 1000 x)

/-- Modelled from the spec: §4.1 step 3, servo clamp to `[-1000, +1000]`. -/
def clampServo (x : Int) : Int := max (-1000) (min 1000 x)

/-- Modelled from the spec: the missing mix-engine source.  §4.1
`evaluate(airframe, inputs) → (motor_outputs, servo_outputs)`: accumulate
per-output sums over the rule table, clamp each motor slot to `[0, 1000]`
and each servo slot to `[-1000, +1000]`, and return both arrays. -/
def evaluate (m : mixer_t) (s : InputSnapshot) : List Int × List Int :=
  ((preClamp m s).1.map clampMotor, (preClamp m s).2.map clampServo)

/-- A rule's `out_index` is in range for its kind in the given airframe
(spec §3 invariant and §4.2 load-time check). -/
def ruleOutIndexValid (m : mixer_t) (r : mixerRule_t) : Bool :=
  match r.type with
  | .MIXER_MOTOR => r.output_index < m.motorCount
  | .MIXER_SERVO => r.output_index < m.servoCount

/-- A rule references a recognized input channel (spec §4.2 load-time
check); every variant of `InputChannel` is a recognized stabilized channel. -/
def ruleInputRecognized (r : mixerRule_t) : Bool :=
  match r.input with
  | .STABILIZED_ROLL => true
  | .STABILIZED_PITCH => true
  | .STABILIZED_YAW => true
  | .STABILIZED_THROTTLE => true

/-- Modelled from the spec: the missing airframe-loader source.  §4.2
`load(descriptor) → airframe | error`: validates that every rule references
an in-range `out_index` for its kind and a recognized input channel; on
success returns the airframe, otherwise a configuration error (`none`). -/
def load (m : mixer_t) : Option mixer_t :=
  if m.rules.all (fun r => ruleOutIndexValid m r && ruleInputRecognized r) then some m else none

/-- Rule 1 of the compiled table (shared by concrete instantiations below). -/
def twinRule1 : mixerRule_t := ⟨.MIXER_MOTOR, 0, .STABILIZED_THROTTLE, 1000, 0⟩

/-! ### Helper lemmas on C truncated division -/

/-- Truncated division by 1000 expressed through Euclidean division. -/
lemma tdiv_1000_eq (t : Int) : t.tdiv 1000 = if 0 ≤ t then t / 1000 else -((-t) / 1000) := by
  split
  · exact Int.tdiv_eq_ediv (by assumption) (by norm_num)
  · have e : t.tdiv 1000 = -((-t).tdiv 1000) := by
      rw [← Int.neg_tdiv, neg_neg]
    rw [e, Int.tdiv_eq_ediv (by omega) (by norm_num)]

/-- The truncated-division remainder against 1000 is strictly within 1000. -/
lemma tdiv_1000_sub_bounds (t : Int) :
    -1000 < 1000 * t.tdiv 1000 - t ∧ 1000 * t.tdiv 1000 - t < 1000 := by
  rw [tdiv_1000_eq]
  split_ifs <;> omega

/-- Doubling the dividend doubles a truncated quotient up to one unit. -/
lemma tdiv_double_err (a : Int) :
    -1 ≤ (2 * a).tdiv 1000 - 2 * a.tdiv 1000 ∧ (2 * a).tdiv 1000 - 2 * a.tdiv 1000 ≤ 1 := by
  rw [tdiv_1000_eq, tdiv_1000_eq]
  split_ifs <;> omega

/-- A truncated quotient differs from the exact rational quotient by
strictly less than one unit. -/
lemma tdiv_err_lt_one (t : Int) : |((t.tdiv 1000 : Int) : ℚ) - (t : ℚ) / 1000| < 1 := by
  have h := tdiv_1000_sub_bounds t
  have e : ((t.tdiv 1000 : Int) : ℚ) - (t : ℚ) / 1000 =
      ((1000 * t.tdiv 1000 - t : Int) : ℚ) / 1000 := by
    push_cast
    ring
  rw [e, abs_div]
  have h1000 : |(1000 : ℚ)| = 1000 := by norm_num
  rw [h1000, div_lt_one (by norm_num : (0:ℚ) < 1000)]
  have hb : |(1000 * t.tdiv 1000 - t : Int)| < 1000 := abs_lt.mpr ⟨by omega, by omega⟩
  exact_mod_cast hb

/-- Closed form of the pre-clamp accumulators for the compiled twin-wing
airframe: motor 0 gets throttle minus half yaw, motor 1 throttle plus half
yaw, servo 0 half pitch minus half roll, servo 1 half pitch plus half roll,
all with truncated division. -/
lemma preClamp_twin (t r p y : Int) :
    preClamp mixerTwinEngine ⟨t, r, p, y⟩ =
      ([t + ((-500) * y).tdiv 1000, t + (500 * y).tdiv 1000],
       [(500 * p).tdiv 1000 + ((-500) * r).tdiv 1000,
        (500 * p).tdiv 1000 + (500 * r).tdiv 1000]) := by
  simp [preClamp, mixerTwinEngine, mixerRulesTwinEngine, applyRule, contrib, readInput,
    Int.mul_tdiv_cancel_left]

/-! ### Claim theorems -/

/-- C1: the compiled-in rule table `mixerRulesTwinEngine` equals the
normative twin-wing table of spec §3, rule for rule and in the same order,
and it has exactly 8 rules. -/
theorem table_matches_spec :
    mixerRulesTwinEngine = specTwinWingTable ∧ mixerRulesTwinEngine.length = 8 := by
  decide

/-- C2: for every input snapshot with all four stabilized inputs in
`[-1000, +1000]`, evaluation over the compiled twin-wing airframe returns
motor outputs in `[0, 1000]` and servo outputs in `[-1000, +1000]`. -/
theorem evaluate_output_ranges (s : InputSnapshot) (_hs : s.inRange) :
    (∀ x ∈ (evaluate mixerTwinEngine s).1, 0 ≤ x ∧ x ≤ 1000) ∧
    (∀ x ∈ (evaluate mixerTwinEngine s).2, -1000 ≤ x ∧ x ≤ 1000) := by
  constructor
  · intro x hx
    simp only [evaluate, List.mem_map] at hx
    obtain ⟨a, -, rfl⟩ := hx
    unfold clampMotor
    exact ⟨le_max_left 0 _, max_le (by norm_num) (min_le_left _ _)⟩
  · intro x hx
    simp only [evaluate, List.mem_map] at hx
    obtain ⟨a, -, rfl⟩ := hx
    unfold clampServo
    exact ⟨le_max_left (-1000) _, max_le (by norm_num) (min_le_left _ _)⟩

/-- Witness for C2 at the concrete in-range snapshot (1000, 0, 0, 500). -/
theorem evaluate_output_ranges_witness :
    (⟨1000, 0, 0, 500⟩ : InputSnapshot).inRange ∧
    ((∀ x ∈ (evaluate mixerTwinEngine ⟨1000, 0, 0, 500⟩).1, 0 ≤ x ∧ x ≤ 1000) ∧
     (∀ x ∈ (evaluate mixerTwinEngine ⟨1000, 0, 0, 500⟩).2, -1000 ≤ x ∧ x ≤ 1000)) :=
  ⟨by decide, evaluate_output_ranges ⟨1000, 0, 0, 500⟩ (by decide)⟩

/-- C3: the seven literal boundary scenarios of spec §8 evaluate to exactly
the listed post-clamp outputs on the compiled twin-wing airframe (snapshot
order is throttle, roll, pitch, yaw). -/
theorem boundary_scenarios :
    evaluate mixerTwinEngine ⟨0, 0, 0, 0⟩ = ([0, 0], [0, 0]) ∧
    evaluate mixerTwinEngine ⟨1000, 0, 0, 0⟩ = ([1000, 1000], [0, 0]) ∧
    evaluate mixerTwinEngine ⟨1000, 0, 0, 500⟩ = ([750, 1000], [0, 0]) ∧
    evaluate mixerTwinEngine ⟨1000, 0, 0, -500⟩ = ([1000, 750], [0, 0]) ∧
    evaluate mixerTwinEngine ⟨500, 0, 1000, 0⟩ = ([500, 500], [500, 500]) ∧
    evaluate mixerTwinEngine ⟨500, 1000, 0, 0⟩ = ([500, 500], [-500, 500]) ∧
    evaluate mixerTwinEngine ⟨0, 0, 0, 1000⟩ = ([0, 500], [0, 0]) := by
  decide

/-- C4: the compiled airframe descriptor satisfies every load-time validity
condition — each MOTOR rule's `out_index` is below `motorCount = 2`, each
SERVO rule's `out_index` is below `servoCount = 2`, every rule's input is a
recognized stabilized channel — and `load` succeeds on it. -/
theorem load_twin_succeeds :
    (∀ r ∈ mixerTwinEngine.rules, ruleOutIndexValid mixerTwinEngine r = true) ∧
    (∀ r ∈ mixerTwinEngine.rules, ruleInputRecognized r = true) ∧
    mixerTwinEngine.motorCount = 2 ∧ mixerTwinEngine.servoCount = 2 ∧
    load mixerTwinEngine = some mixerTwinEngine := by
  decide

/-- C9: evaluation is deterministic — a pure function of the airframe
descriptor and the input snapshot: identical airframes and identical input
snapshots give identical motor and servo output arrays. -/
theorem evaluate_deterministic (m m' : mixer_t) (s s' : InputSnapshot)
    (hm : m = m') (hs : s = s') : evaluate m s = evaluate m' s' := by
  subst hm
  subst hs
  rfl

/-- Witness for C9 at the compiled airframe and a concrete snapshot. -/
theorem evaluate_deterministic_witness :
    evaluate mixerTwinEngine ⟨1, 2, 3, 4⟩ = evaluate mixerTwinEngine ⟨1, 2, 3, 4⟩ :=
  evaluate_deterministic mixerTwinEngine mixerTwinEngine ⟨1, 2, 3, 4⟩ ⟨1, 2, 3, 4⟩ rfl rfl

/-- C5: yaw symmetry for the compiled twin-wing table — for every yaw value
in `[-1000, +1000]` and arbitrary other inputs, the pre-clamp motor-0
accumulator at yaw `+y` equals the pre-clamp motor-1 accumulator at yaw
`-y`, and vice versa. -/
theorem yaw_symmetry (t r p y : Int) (_h1 : -1000 ≤ y) (_h2 : y ≤ 1000) :
    (preClamp mixerTwinEngine ⟨t, r, p, y⟩).1.getD 0 0 =
      (preClamp mixerTwinEngine ⟨t, r, p, -y⟩).1.getD 1 0 ∧
    (preClamp mixerTwinEngine ⟨t, r, p, y⟩).1.getD 1 0 =
      (preClamp mixerTwinEngine ⟨t, r, p, -y⟩).1.getD 0 0 := by
  rw [preClamp_twin, preClamp_twin]
  have e1 : (500 : Int) * -y = (-500) * y := by ring
  have e2 : (-500 : Int) * -y = 500 * y := by ring
  rw [e1, e2]
  simp

/-- Witness for C5 at (t, r, p, y) = (800, 1, 2, 300). -/
theorem yaw_symmetry_witness :
    (-1000 : Int) ≤ 300 ∧ (300 : Int) ≤ 1000 ∧
    ((preClamp mixerTwinEngine ⟨800, 1, 2, 300⟩).1.getD 0 0 =
       (preClamp mixerTwinEngine ⟨800, 1, 2, -300⟩).1.getD 1 0 ∧
     (preClamp mixerTwinEngine ⟨800, 1, 2, 300⟩).1.getD 1 0 =
       (preClamp mixerTwinEngine ⟨800, 1, 2, -300⟩).1.getD 0 0) :=
  ⟨by decide, by decide, yaw_symmetry 800 1 2 300 (by decide) (by decide)⟩

/-- C6: pitch symmetry for the compiled twin-wing table — for every pitch
value in `[-1000, +1000]` with roll 0, the two pre-clamp servo
accumulators are equal, and both equal `(500 × pitch) / 1000` under
truncated division. -/
theorem pitch_symmetry (t p y : Int) (_h1 : -1000 ≤ p) (_h2 : p ≤ 1000) :
    (preClamp mixerTwinEngine ⟨t, 0, p, y⟩).2.getD 0 0 =
      (preClamp mixerTwinEngine ⟨t, 0, p, y⟩).2.getD 1 0 ∧
    (preClamp mixerTwinEngine ⟨t, 0, p, y⟩).2.getD 0 0 = (500 * p).tdiv 1000 ∧
    (evaluate mixerTwinEngine ⟨t, 0, p, y⟩).2.getD 0 0 =
      (evaluate mixerTwinEngine ⟨t, 0, p, y⟩).2.getD 1 0 := by
  simp [evaluate, preClamp_twin]

/-- Witness for C6 at (t, p, y) = (0, 7, 0). -/
theorem pitch_symmetry_witness :
    (-1000 : Int) ≤ 7 ∧ (7 : Int) ≤ 1000 ∧
    ((preClamp mixerTwinEngine ⟨0, 0, 7, 0⟩).2.getD 0 0 =
       (preClamp mixerTwinEngine ⟨0, 0, 7, 0⟩).2.getD 1 0 ∧
     (preClamp mixerTwinEngine ⟨0, 0, 7, 0⟩).2.getD 0 0 = ((500 : Int) * 7).tdiv 1000 ∧
     (evaluate mixerTwinEngine ⟨0, 0, 7, 0⟩).2.getD 0 0 =
       (evaluate mixerTwinEngine ⟨0, 0, 7, 0⟩).2.getD 1 0) :=
  ⟨by decide, by decide, pitch_symmetry 0 7 0 (by decide) (by decide)⟩

/-- C7 counterexample: doubling every input does not double every pre-clamp
accumulator.  At the in-range snapshot (0, 0, 1, 0) the servo-0 accumulator
is `(500 × 1).tdiv 1000 = 0`, but at the doubled (also in-range) snapshot
(0, 0, 2, 0) it is `(500 × 2).tdiv 1000 = 1 ≠ 2 × 0`. -/
theorem linearity_counterexample :
    (⟨0, 0, 1, 0⟩ : InputSnapshot).inRange ∧
    (⟨0, 0, 2, 0⟩ : InputSnapshot).inRange ∧
    ¬((preClamp mixerTwinEngine ⟨0, 0, 2, 0⟩).2.getD 0 0 =
        2 * (preClamp mixerTwinEngine ⟨0, 0, 1, 0⟩).2.getD 0 0) := by
  decide

/-- C7 (amended): for every input snapshot such that both it and its double
lie in `[-1000, +1000]`, doubling every input doubles every pre-clamp motor
and servo accumulator up to truncation error of at most 1 unit per
contributing rule — at most 2 units per slot for the twin-wing table. -/
theorem linearity_approx (t r p y : Int)
    (_h : (⟨t, r, p, y⟩ : InputSnapshot).inRange)
    (_h2 : (⟨2 * t, 2 * r, 2 * p, 2 * y⟩ : InputSnapshot).inRange) :
    ∀ i : Nat,
      |(preClamp mixerTwinEngine ⟨2 * t, 2 * r, 2 * p, 2 * y⟩).1.getD i 0 -
        2 * (preClamp mixerTwinEngine ⟨t, r, p, y⟩).1.getD i 0| ≤ 2 ∧
      |(preClamp mixerTwinEngine ⟨2 * t, 2 * r, 2 * p, 2 * y⟩).2.getD i 0 -
        2 * (preClamp mixerTwinEngine ⟨t, r, p, y⟩).2.getD i 0| ≤ 2 := by
  intro i
  rw [preClamp_twin, preClamp_twin]
  have em0 : (-500 : Int) * (2 * y) = 2 * ((-500) * y) := by ring
  have em1 : (500 : Int) * (2 * y) = 2 * (500 * y) := by ring
  have es0p : (500 : Int) * (2 * p) = 2 * (500 * p) := by ring
  have es0r : (-500 : Int) * (2 * r) = 2 * ((-500) * r) := by ring
  have es1r : (500 : Int) * (2 * r) = 2 * (500 * r) := by ring
  match i with
  | 0 =>
    simp only [List.getD_cons_zero]
    rw [em0, es0p, es0r]
    have hy := tdiv_double_err ((-500) * y)
    have hp := tdiv_double_err (500 * p)
    have hr := tdiv_double_err ((-500) * r)
    constructor <;> rw [abs_le] <;> constructor <;> linarith [hy.1, hy.2, hp.1, hp.2, hr.1, hr.2]
  | 1 =>
    simp only [List.getD_cons_succ, List.getD_cons_zero]
    rw [em1, es0p, es1r]
    have hy := tdiv_double_err (500 * y)
    have hp := tdiv_double_err (500 * p)
    have hr := tdiv_double_err (500 * r)
    constructor <;> rw [abs_le] <;> constructor <;> linarith [hy.1, hy.2, hp.1, hp.2, hr.1, hr.2]
  | (n + 2) =>
    simp [List.getD]

/-- Witness for C7 (amended) at the snapshot (3, 5, 1, 7), whose double
(6, 10, 2, 14) is also in range, taken at slot index 0. -/
theorem linearity_approx_witness :
    (⟨3, 5, 1, 7⟩ : InputSnapshot).inRange ∧
    (⟨2 * 3, 2 * 5, 2 * 1, 2 * 7⟩ : InputSnapshot).inRange ∧
    (|(preClamp mixerTwinEngine ⟨2 * 3, 2 * 5, 2 * 1, 2 * 7⟩).1.getD 0 0 -
        2 * (preClamp mixerTwinEngine ⟨3, 5, 1, 7⟩).1.getD 0 0| ≤ 2 ∧
     |(preClamp mixerTwinEngine ⟨2 * 3, 2 * 5, 2 * 1, 2 * 7⟩).2.getD 0 0 -
        2 * (preClamp mixerTwinEngine ⟨3, 5, 1, 7⟩).2.getD 0 0| ≤ 2) :=
  ⟨by decide, by decide, linearity_approx 3 5 1 7 (by decide) (by decide) 0⟩

/-- C8: for every rule of the compiled twin-wing table and every input value
in `[-1000, +1000]`, the product `rate × input` has magnitude at most
1,000,000 (so it fits in 32-bit signed arithmetic), and the
truncated-division contribution differs from the exact rational value by
strictly less than 1 unit. -/
theorem rounding_bound :
    ∀ r ∈ mixerRulesTwinEngine, ∀ x : Int, -1000 ≤ x → x ≤ 1000 →
      |r.rate * x| ≤ 1000000 ∧
      |(((r.rate * x).tdiv 1000 + r.offset : Int) : ℚ) -
        ((r.rate : ℚ) * (x : ℚ) / 1000 + (r.offset : ℚ))| < 1 := by
  intro r hr x hx1 hx2
  have hrate : |r.rate| ≤ 1000 := by
    fin_cases hr <;> decide
  refine ⟨?_, ?_⟩
  · calc |r.rate * x| = |r.rate| * |x| := abs_mul _ _
      _ ≤ 1000 * 1000 := mul_le_mul hrate (abs_le.mpr ⟨hx1, hx2⟩) (abs_nonneg _) (by norm_num)
      _ = 1000000 := by norm_num
  · have key := tdiv_err_lt_one (r.rate * x)
    have e : (((r.rate * x).tdiv 1000 + r.offset : Int) : ℚ) -
        ((r.rate : ℚ) * (x : ℚ) / 1000 + (r.offset : ℚ)) =
        (((r.rate * x).tdiv 1000 : Int) : ℚ) - ((r.rate * x : Int) : ℚ) / 1000 := by
      push_cast
      ring
    rw [e]
    exact key

/-- Witness for C8 at rule 1 of the table and input value 3. -/
theorem rounding_bound_witness :
    twinRule1 ∈ mixerRulesTwinEngine ∧ (-1000 : Int) ≤ 3 ∧ (3 : Int) ≤ 1000 ∧
    (|twinRule1.rate * 3| ≤ 1000000 ∧
     |(((twinRule1.rate * 3).tdiv 1000 + twinRule1.offset : Int) : ℚ) -
       ((twinRule1.rate : ℚ) * (3 : ℚ) / 1000 + (twinRule1.offset : ℚ))| < 1) :=
  ⟨by decide, by decide, by decide,
   rounding_bound twinRule1 (by decide) 3 (by decide) (by decide)⟩

/-- C10: channel separation for the compiled twin-wing table — the motor
outputs depend only on throttle and yaw, and the servo outputs depend only
on roll and pitch, both pre- and post-clamp. -/
theorem channel_separation (s s' : InputSnapshot) :
    (s.throttle = s'.throttle → s.yaw = s'.yaw →
      (preClamp mixerTwinEngine s).1 = (preClamp mixerTwinEngine s').1 ∧
      (evaluate mixerTwinEngine s).1 = (evaluate mixerTwinEngine s').1) ∧
    (s.roll = s'.roll → s.pitch = s'.pitch →
      (preClamp mixerTwinEngine s).2 = (preClamp mixerTwinEngine s').2 ∧
      (evaluate mixerTwinEngine s).2 = (evaluate mixerTwinEngine s').2) := by
  obtain ⟨t, r, p, y⟩ := s
  obtain ⟨t', r', p', y'⟩ := s'
  constructor
  · intro ht hy
    dsimp only at ht hy
    subst ht
    subst hy
    constructor
    · rw [preClamp_twin, preClamp_twin]
    · simp only [evaluate]
      rw [preClamp_twin, preClamp_twin]
  · intro hr hp
    dsimp only at hr hp
    subst hr
    subst hp
    constructor
    · rw [preClamp_twin, preClamp_twin]
    · simp only [evaluate]
      rw [preClamp_twin, preClamp_twin]

/-- Witness for C10: motors unchanged when only roll and pitch change,
servos unchanged when only throttle and yaw change. -/
theorem channel_separation_witness :
    ((preClamp mixerTwinEngine ⟨100, 0, 0, 50⟩).1 =
       (preClamp mixerTwinEngine ⟨100, 999, -999, 50⟩).1 ∧
     (evaluate mixerTwinEngine ⟨100, 0, 0, 50⟩).1 =
       (evaluate mixerTwinEngine ⟨100, 999, -999, 50⟩).1) ∧
    ((preClamp mixerTwinEngine ⟨100, 0, 0, 50⟩).2 =
       (preClamp mixerTwinEngine ⟨-700, 0, 0, 2⟩).2 ∧
     (evaluate mixerTwinEngine ⟨100, 0, 0, 50⟩).2 =
       (evaluate mixerTwinEngine ⟨-700, 0, 0, 2⟩).2) :=
  ⟨(channel_separation ⟨100, 0, 0, 50⟩ ⟨100, 999, -999, 50⟩).1 rfl rfl,
   (channel_separation ⟨100, 0, 0, 50⟩ ⟨-700, 0, 0, 2⟩).2 rfl rfl⟩

end UAVMixer
